import Mathlib

/-!
Verification of the pprofio continuous-profiling agent against its
natural-language specification.

The Go sources are embedded shallowly: the retry loops of
`HTTPStorage.uploadWithRetries` (storage.go) and `metadataClient.sendMetadata`
(metadata.go) become structurally recursive functions over an abstract
per-attempt HTTP outcome; `Config.validate` (config.go) becomes a function
from configurations to `Except`; the profiler lifecycle (pprofio.go) and the
span aggregator loop (`processCustomSpans`) become explicit state-transition
functions.  Machine integers that matter (the `Retries` budget, durations,
runtime knobs, Go `int`/`time.Duration` fields) are modelled as `Int`.
-/

namespace Pprofio

/-! ## HTTP outcomes and error values

One delivery attempt (an `http.Client.Do` call plus the body read) either
fails at the transport level or yields a status code and a body-read result.
Go `error` values that can end up in `lastErr` or be returned are modelled
as inductive types carrying the data interpolated into the message.
-/

/-- Result of reading a 2xx response body (`io.ReadAll(resp.Body)`). -/
inductive ReadResult where
  | ok (s : String)
  | fail
deriving Repr, DecidableEq

/-- Outcome of one HTTP attempt: transport failure (`s.Client.Do` returns an
error) or a response with a status code and a body-read result. -/
inductive HttpResult where
  | transportError
  | response (code : Nat) (body : ReadResult)
deriving Repr, DecidableEq

/-- Errors that the upload loop stores into `lastErr` and retries past:
`"request failed"`, `"server error: %d"`, `"failed to read response"`. -/
inductive AttemptErr where
  | requestFailed
  | serverError (code : Nat)
  | readResponseFailed
  | unexpectedStatus (code : Nat)
deriving Repr, DecidableEq

/-- Errors returned by `HTTPStorage.uploadWithRetries`:
`"authentication failed: %d"`, `"unexpected status code: %d"`, and
`"upload failed after %d attempts: %w"` wrapping the (possibly nil) last
attempt error. -/
inductive UploadErr where
  | authenticationFailed (code : Nat)
  | unexpectedStatus (code : Nat)
  | uploadFailedAfter (retries : Int) (last : Option AttemptErr)
deriving Repr, DecidableEq

/-- Observable side effects of one run of the retry loop: how many requests
were actually sent and the backoff sleeps in order (milliseconds). -/
structure UploadTrace where
  attempts : Nat
  sleeps : List Nat
deriving Repr, DecidableEq

/-- storage.go line 128: `resp.StatusCode == 429 || (resp.StatusCode >= 500 && resp.StatusCode < 600)`. -/
def isRetryableStatus (code : Nat) : Bool :=
  code == 429 || (500 ≤ code && code < 600)

/-- storage.go line 124: `resp.StatusCode == 401 || resp.StatusCode == 403`. -/
def isAuthStatus (code : Nat) : Bool :=
  code == 401 || code == 403

/-- storage.go line 99: `math.Pow(2, float64(attempt-1)) * 100` milliseconds;
for the attempt values that can reach it (`attempt ≥ 1`) the float computation
is exactly `2^(attempt-1) * 100`. -/
def backoffMs (attempt : Nat) : Nat := 2 ^ (attempt - 1) * 100

/-- The body of `HTTPStorage.uploadWithRetries` (storage.go lines 93-148).
`retries` is the `s.Retries` field (a Go `int`), `respond attempt` the outcome
of the attempt with that zero-based index, `rem` the remaining loop
iterations (`retries.toNat` at the top call) and `lastErr` the current value
of the `lastErr` variable.  Request construction
(`http.NewRequestWithContext`) cannot fail for the fixed method and URL, so
that `continue` branch is not modelled.  Returns the Go return value plus the
trace of sent requests and backoff sleeps. -/
def uploadGo (retries : Int) (respond : Nat → HttpResult) :
    Nat → Nat → Option AttemptErr → Except UploadErr String × UploadTrace
  | _, 0, lastErr => (.error (.uploadFailedAfter retries lastErr), ⟨0, []⟩)
  | attempt, rem + 1, _ =>
      let sleepsHere : List Nat := if 0 < attempt then [backoffMs attempt] else []
      match respond attempt with
      | .transportError =>
          let r := uploadGo retries respond (attempt + 1) rem (some .requestFailed)
          (r.1, ⟨r.2.attempts + 1, sleepsHere ++ r.2.sleeps⟩)
      | .response code body =>
          if isAuthStatus code then
            (.error (.authenticationFailed code), ⟨1, sleepsHere⟩)
          else if isRetryableStatus code then
            let r := uploadGo retries respond (attempt + 1) rem (some (.serverError code))
            (r.1, ⟨r.2.attempts + 1, sleepsHere ++ r.2.sleeps⟩)
          else if code < 200 || 300 ≤ code then
            (.error (.unexpectedStatus code), ⟨1, sleepsHere⟩)
          else
            match body with
            | .ok s => (.ok s, ⟨1, sleepsHere⟩)
            | .fail =>
                let r := uploadGo retries respond (attempt + 1) rem (some .readResponseFailed)
                (r.1, ⟨r.2.attempts + 1, sleepsHere ++ r.2.sleeps⟩)

/-- `HTTPStorage.uploadWithRetries`: the loop
`for attempt := 0; attempt < s.Retries; attempt++` runs at most
`retries.toNat` iterations starting from attempt 0 with `lastErr = nil`. -/
def uploadWithRetries (retries : Int) (respond : Nat → HttpResult) :
    Except UploadErr String × UploadTrace :=
  uploadGo retries respond 0 retries.toNat none

/-- The backoff sleeps produced by the frames `attempt, attempt+1, …,
attempt+k-1` of the loop: attempt 0 sleeps nothing, attempt `a ≥ 1` sleeps
`backoffMs a`. -/
def sleepsFor (attempt k : Nat) : List Nat :=
  (List.range' attempt k).filterMap (fun a => if a = 0 then none else some (backoffMs a))

lemma retryable_not_auth {c : Nat} (h : isRetryableStatus c = true) :
    isAuthStatus c = false := by
  simp only [isRetryableStatus, Bool.or_eq_true, beq_iff_eq, Bool.and_eq_true,
    decide_eq_true_eq] at h
  simp only [isAuthStatus, Bool.or_eq_false_iff, beq_eq_false_iff_ne, ne_eq]
  omega

lemma success_not_auth {c : Nat} (h1 : 200 ≤ c) (h2 : c < 300) :
    isAuthStatus c = false := by
  simp only [isAuthStatus, Bool.or_eq_false_iff, beq_eq_false_iff_ne, ne_eq]
  omega

lemma success_not_retryable {c : Nat} (h1 : 200 ≤ c) (h2 : c < 300) :
    isRetryableStatus c = false := by
  simp only [isRetryableStatus, Bool.or_eq_false_iff, beq_eq_false_iff_ne, ne_eq,
    Bool.and_eq_false_iff, decide_eq_false_iff_not, not_le, not_lt]
  omega

lemma backoffMs_succ (a : Nat) : backoffMs (a + 1) = 2 ^ a * 100 := by
  simp [backoffMs]

lemma sleepsFor_one (attempt : Nat) :
    sleepsFor attempt 1 = if 0 < attempt then [backoffMs attempt] else [] := by
  cases attempt with
  | zero => simp [sleepsFor, List.range']
  | succ a => simp [sleepsFor, List.range']

lemma sleepsFor_succ (attempt k : Nat) :
    sleepsFor attempt (k + 1) =
      (if 0 < attempt then [backoffMs attempt] else []) ++ sleepsFor (attempt + 1) k := by
  rw [sleepsFor, List.range'_succ, List.filterMap_cons]
  cases attempt with
  | zero => simp [sleepsFor]
  | succ a => simp [sleepsFor]

lemma filterMap_range'_shift (k : Nat) : ∀ s : Nat,
    (List.range' (s + 1) k).filterMap
        (fun a => if a = 0 then none else some (backoffMs a)) =
      (List.range' s k).map (fun i => 2 ^ i * 100) := by
  induction k with
  | zero => intro s; rfl
  | succ k ih =>
      intro s
      rw [List.range'_succ, List.filterMap_cons, List.range'_succ, List.map_cons]
      rw [if_neg (Nat.succ_ne_zero s), backoffMs_succ, ih (s + 1)]

lemma sleepsFor_zero_eq (N : Nat) :
    sleepsFor 0 N = (List.range (N - 1)).map (fun i => 2 ^ i * 100) := by
  cases N with
  | zero => rfl
  | succ n =>
      have h := filterMap_range'_shift n 0
      simp only [Nat.zero_add] at h
      rw [sleepsFor, List.range'_succ, List.filterMap_cons]
      simp only [if_pos rfl, Nat.succ_sub_one, List.range_eq_range']
      exact h

lemma chain_lt_pow_map (k : Nat) : ∀ s : Nat,
    List.Chain' (· < ·) ((List.range' s k).map (fun i => 2 ^ i * 100)) := by
  induction k with
  | zero => intro s; simp
  | succ k ih =>
      intro s
      cases k with
      | zero => simp
      | succ k' =>
          have h2 := ih (s + 1)
          rw [List.range'_succ, List.map_cons] at h2
          rw [List.range'_succ, List.map_cons, List.range'_succ, List.map_cons,
            List.chain'_cons]
          refine ⟨?_, h2⟩
          have : (2 : Nat) ^ s < 2 ^ (s + 1) :=
            Nat.pow_lt_pow_right (by norm_num) (Nat.lt_succ_self s)
          omega

/-- One loop frame drawing a 2xx status whose body reads successfully:
return the body after this single request. -/
lemma uploadGo_frame_success (retries : Int) (respond : Nat → HttpResult)
    (attempt r : Nat) (lastErr : Option AttemptErr) (code : Nat) (body : String)
    (hresp : respond attempt = .response code (.ok body))
    (hc1 : 200 ≤ code) (hc2 : code < 300) :
    uploadGo retries respond attempt (r + 1) lastErr =
      (.ok body, ⟨1, if 0 < attempt then [backoffMs attempt] else []⟩) := by
  simp only [uploadGo, hresp]
  rw [if_neg (by rw [success_not_auth hc1 hc2]; exact Bool.false_ne_true),
    if_neg (by rw [success_not_retryable hc1 hc2]; exact Bool.false_ne_true),
    if_neg (by simp only [Bool.or_eq_true, decide_eq_true_eq, not_or, not_lt, not_le]; omega)]

/-- One loop frame drawing a retryable (429/5xx) status: record the
server error as `lastErr` and continue with the next attempt. -/
lemma uploadGo_frame_retry (retries : Int) (respond : Nat → HttpResult)
    (attempt r : Nat) (lastErr : Option AttemptErr) (code : Nat) (b : ReadResult)
    (hresp : respond attempt = .response code b)
    (hretry : isRetryableStatus code = true) :
    uploadGo retries respond attempt (r + 1) lastErr =
      ((uploadGo retries respond (attempt + 1) r (some (.serverError code))).1,
        ⟨(uploadGo retries respond (attempt + 1) r (some (.serverError code))).2.attempts + 1,
          (if 0 < attempt then [backoffMs attempt] else []) ++
            (uploadGo retries respond (attempt + 1) r (some (.serverError code))).2.sleeps⟩) := by
  simp only [uploadGo, hresp]
  rw [if_neg (by rw [retryable_not_auth hretry]; exact Bool.false_ne_true), if_pos hretry]

/-- One loop frame drawing a 401/403 status: immediate fatal return. -/
lemma uploadGo_frame_auth (retries : Int) (respond : Nat → HttpResult)
    (attempt r : Nat) (lastErr : Option AttemptErr) (code : Nat) (b : ReadResult)
    (hresp : respond attempt = .response code b)
    (hauth : isAuthStatus code = true) :
    uploadGo retries respond attempt (r + 1) lastErr =
      (.error (.authenticationFailed code),
        ⟨1, if 0 < attempt then [backoffMs attempt] else []⟩) := by
  simp only [uploadGo, hresp]
  rw [if_pos hauth]

/-- Core run lemma: if attempts `attempt, …, attempt+k-1` all draw retryable
statuses and attempt `attempt+k` draws a 2xx status whose body reads as
`body`, then the loop (with more than `k` iterations left) returns the body
after exactly `k+1` further requests, sleeping the backoff of each non-zero
attempt index. -/
lemma uploadGo_run_success (respond : Nat → HttpResult) (retries : Int)
    (code : Nat) (body : String) (hc1 : 200 ≤ code) (hc2 : code < 300) :
    ∀ (k attempt rem : Nat) (lastErr : Option AttemptErr), k < rem →
    (∀ a, attempt ≤ a → a < attempt + k →
      ∃ c b, respond a = .response c b ∧ isRetryableStatus c = true) →
    respond (attempt + k) = .response code (.ok body) →
    uploadGo retries respond attempt rem lastErr =
      (.ok body, ⟨k + 1, sleepsFor attempt (k + 1)⟩) := by
  intro k
  induction k with
  | zero =>
      intro attempt rem lastErr hrem _ hresp
      obtain ⟨r, rfl⟩ : ∃ r, rem = r + 1 := ⟨rem - 1, by omega⟩
      rw [Nat.add_zero] at hresp
      rw [uploadGo_frame_success retries respond attempt r lastErr code body hresp hc1 hc2]
      simp [sleepsFor_one]
  | succ k ih =>
      intro attempt rem lastErr hrem hfail hresp
      obtain ⟨r, rfl⟩ : ∃ r, rem = r + 1 := ⟨rem - 1, by omega⟩
      obtain ⟨c, b, hrc, hretry⟩ := hfail attempt (le_refl _) (by omega)
      have hrec := ih (attempt + 1) r (some (.serverError c)) (by omega)
        (fun a ha1 ha2 => hfail a (by omega) (by omega))
        (by rw [show attempt + 1 + k = attempt + (k + 1) by omega]; exact hresp)
      rw [uploadGo_frame_retry retries respond attempt r lastErr c b hrc hretry, hrec]
      simp [sleepsFor_succ attempt (k + 1)]

/-- C4: if the endpoint fails with a retryable (500-equivalent) status on the
first `N-1` attempts and succeeds (2xx, readable body) on attempt `N`, with
`N` within the budget, then `uploadWithRetries` returns the response body as
the locator, sends exactly `N` requests, and the backoff sleeps between
consecutive attempts are `2^0·100, 2^1·100, …, 2^(N-2)·100` ms — a strictly
increasing sequence. -/
theorem upload_eventual_success (respond : Nat → HttpResult) (retries : Int)
    (N code : Nat) (body : String)
    (hN : 1 ≤ N) (hbudget : (N : Int) ≤ retries)
    (hfail : ∀ a, a + 1 < N → ∃ c b, respond a = .response c b ∧ isRetryableStatus c = true)
    (hc1 : 200 ≤ code) (hc2 : code < 300)
    (hresp : respond (N - 1) = .response code (.ok body)) :
    uploadWithRetries retries respond =
      (.ok body, ⟨N, (List.range (N - 1)).map (fun i => 2 ^ i * 100)⟩) ∧
    List.Chain' (· < ·) ((List.range (N - 1)).map (fun i => 2 ^ i * 100)) := by
  constructor
  · have hrem : N - 1 < retries.toNat := by omega
    have h := uploadGo_run_success respond retries code body hc1 hc2
      (N - 1) 0 retries.toNat none hrem
      (fun a ha1 ha2 => hfail a (by omega))
      (by rw [Nat.zero_add]; exact hresp)
    rw [uploadWithRetries, h, sleepsFor_zero_eq]
    congr 2
    omega
  · rw [List.range_eq_range']
    exact chain_lt_pow_map (N - 1) 0

/-- The concrete endpoint used to witness `upload_eventual_success`:
500 on the first two attempts, then 200 with body "loc". -/
def respondEventual : Nat → HttpResult :=
  fun a => if a < 2 then .response 500 (.ok "") else .response 200 (.ok "loc")

/-- Witness for `upload_eventual_success`: budget 3, N = 3. -/
theorem upload_eventual_success_witness :
    uploadWithRetries 3 respondEventual =
      (.ok "loc", ⟨3, (List.range (3 - 1)).map (fun i => 2 ^ i * 100)⟩) ∧
    List.Chain' (· < ·) ((List.range (3 - 1)).map (fun i => 2 ^ i * 100)) := by
  refine upload_eventual_success respondEventual 3 3 200 "loc" (by omega) (by norm_num)
    (fun a ha => ⟨500, .ok "", ?_, by decide⟩) (by omega) (by omega) ?_
  · simp only [respondEventual, if_pos (show a < 2 by omega)]
  · simp only [respondEventual]
    norm_num

/-- C2: with a budget of 3 and an endpoint answering every attempt with a
retryable (503-equivalent) status, exactly 3 requests are sent, backoffs of
100 ms and 200 ms are slept between them, and the returned error is
`"upload failed after 3 attempts"` wrapping the server-error of the last
(third) attempt. -/
theorem upload_budget_exhausted (respond : Nat → HttpResult) (codes : Nat → Nat)
    (h : ∀ a, ∃ b, respond a = .response (codes a) b)
    (hr : ∀ a, isRetryableStatus (codes a) = true) :
    uploadWithRetries 3 respond =
      (.error (.uploadFailedAfter 3 (some (.serverError (codes 2)))), ⟨3, [100, 200]⟩) := by
  obtain ⟨b0, h0⟩ := h 0
  obtain ⟨b1, h1⟩ := h 1
  obtain ⟨b2, h2⟩ := h 2
  rw [uploadWithRetries, show (3 : Int).toNat = 3 from rfl]
  rw [uploadGo_frame_retry 3 respond 0 2 none (codes 0) b0 h0 (hr 0)]
  rw [uploadGo_frame_retry 3 respond 1 1 (some (.serverError (codes 0))) (codes 1) b1 h1 (hr 1)]
  rw [uploadGo_frame_retry 3 respond 2 0 (some (.serverError (codes 1))) (codes 2) b2 h2 (hr 2)]
  rw [show uploadGo 3 respond 3 0 (some (.serverError (codes 2))) =
    (.error (.uploadFailedAfter 3 (some (.serverError (codes 2)))), ⟨0, []⟩) from rfl]
  simp [backoffMs]

/-- Witness for `upload_budget_exhausted`: every attempt answers 503. -/
theorem upload_budget_exhausted_witness :
    uploadWithRetries 3 (fun _ => .response 503 (.ok "")) =
      (.error (.uploadFailedAfter 3 (some (.serverError 503))), ⟨3, [100, 200]⟩) :=
  upload_budget_exhausted (fun _ => .response 503 (.ok "")) (fun _ => 503)
    (fun _ => ⟨.ok "", rfl⟩) (fun _ => show isRetryableStatus 503 = true by decide)

/-- C3: if the first attempt draws a 401- or 403-equivalent status, the loop
returns the fatal `"authentication failed"` error after exactly one request
and with no backoff sleep, for any positive budget. -/
theorem upload_auth_fatal (respond : Nat → HttpResult) (retries : Int)
    (code : Nat) (b : ReadResult) (hbudget : 1 ≤ retries)
    (hcode : code = 401 ∨ code = 403) (h0 : respond 0 = .response code b) :
    uploadWithRetries retries respond =
      (.error (.authenticationFailed code), ⟨1, []⟩) := by
  obtain ⟨r, hrn⟩ : ∃ r, retries.toNat = r + 1 := ⟨retries.toNat - 1, by omega⟩
  rw [uploadWithRetries, hrn,
    uploadGo_frame_auth retries respond 0 r none code b h0
      (by rcases hcode with rfl | rfl <;> decide)]
  simp

/-- Witness for `upload_auth_fatal`: budget 3, first attempt answers 401. -/
theorem upload_auth_fatal_witness :
    uploadWithRetries 3 (fun _ => .response 401 (.ok "")) =
      (.error (.authenticationFailed 401), ⟨1, []⟩) :=
  upload_auth_fatal (fun _ => .response 401 (.ok "")) 3 401 (.ok "")
    (by norm_num) (Or.inl rfl) rfl

/-! ## Configuration (config.go) and storage constructors (storage.go)

`Config` models the HEAD configuration structure: the fields of
`src/config.go` plus the `OutputToStdout` and `Env` fields that `New`
(pprofio.go lines 38-43) and the test files read.  Go `time.Duration` is
an `int64` of nanoseconds and the rate knobs are Go `int`s; both are
modelled as `Int`.  The pluggable `Storage` interface value is modelled by
which implementation it is, keeping the `Retries` field of `HTTPStorage`. -/

/-- Which `Storage` implementation a configuration carries.  `http` keeps
the `Retries` field of the `HTTPStorage` struct. -/
inductive StorageKind where
  | http (retries : Int)
  | file
  | stdout
deriving Repr, DecidableEq

/-- The `HTTPStorage` struct (storage.go lines 24-30). -/
structure HTTPStorage where
  url : String
  apiKey : String
  retries : Int
  env : String
deriving Repr, DecidableEq

/-- `NewHTTPStorage` (storage.go lines 32-40): sets the default retry
budget of 3. -/
def NewHTTPStorage (url apiKey env : String) : HTTPStorage :=
  { url := url, apiKey := apiKey, retries := 3, env := env }

/-- `Config` (config.go lines 16-33 plus the stdout-mode fields used by
pprofio.go).  Field defaults are the Go zero values of the types. -/
structure Config where
  apiKey : String := ""
  ingestURL : String := ""
  sampleRate : Int := 0
  profileDuration : Int := 0
  storage : Option StorageKind := none
  serviceName : String := ""
  tags : List (String × String) := []
  memProfileRate : Int := 0
  mutexFraction : Int := 0
  blockProfileRate : Int := 0
  enableCPU : Bool := false
  enableMemory : Bool := false
  enableGoroutine : Bool := false
  enableMutex : Bool := false
  enableBlock : Bool := false
  enableCustom : Bool := false
  outputToStdout : Bool := false
  env : String := ""
deriving Repr, DecidableEq

/-- config.go line 9: `DefaultSampleRate = 60 * time.Second` (nanoseconds). -/
def DefaultSampleRate : Int := 60 * 1000000000
/-- config.go line 10: `DefaultProfileDuration = 10 * time.Second` (nanoseconds). -/
def DefaultProfileDuration : Int := 10 * 1000000000
/-- config.go line 11: `DefaultMemProfileRate = 4096`. -/
def DefaultMemProfileRate : Int := 4096
/-- config.go line 12: `DefaultMutexFraction = 5`. -/
def DefaultMutexFraction : Int := 5
/-- config.go line 13: `DefaultBlockProfileRate = 100`. -/
def DefaultBlockProfileRate : Int := 100

/-- config.go line 72: no per-kind enable flag is set. -/
def noKindEnabled (c : Config) : Bool :=
  !c.enableCPU && !c.enableMemory && !c.enableGoroutine &&
    !c.enableMutex && !c.enableBlock && !c.enableCustom

/-- The in-place mutations of `Config.validate` (config.go lines 52-75):
non-positive cadence and knob values are replaced by the documented
defaults, and if no profile kind is enabled, CPU and memory are enabled.
Each branch reads only fields the earlier branches do not write, so the
sequential Go assignments equal this simultaneous update. -/
def fillDefaults (c : Config) : Config :=
  { c with
    sampleRate := if c.sampleRate ≤ 0 then DefaultSampleRate else c.sampleRate
    profileDuration := if c.profileDuration ≤ 0 then DefaultProfileDuration else c.profileDuration
    memProfileRate := if c.memProfileRate ≤ 0 then DefaultMemProfileRate else c.memProfileRate
    mutexFraction := if c.mutexFraction ≤ 0 then DefaultMutexFraction else c.mutexFraction
    blockProfileRate := if c.blockProfileRate ≤ 0 then DefaultBlockProfileRate else c.blockProfileRate
    enableCPU := if noKindEnabled c then true else c.enableCPU
    enableMemory := if noKindEnabled c then true else c.enableMemory }

/-- `Config.validate` (config.go lines 35-78): the required-field checks
happen before any mutation, so on the error paths the configuration is
untouched; on success the defaults are filled in place (returned here as
the updated configuration). -/
def Config.validate (c : Config) : Except String Config :=
  if c.apiKey = "" then .error "APIKey is required"
  else if c.ingestURL = "" then .error "IngestURL is required"
  else if c.storage = none then .error "Storage is required"
  else if c.serviceName = "" then .error "ServiceName is required"
  else .ok (fillDefaults c)

/-- `DefaultConfig` (config.go lines 80-99).  The `Storage` field is built
as a bare struct literal `&HTTPStorage{URL: …, APIKey: …}`, so its
`Retries` field keeps the Go zero value 0. -/
def DefaultConfig (apiKey ingestURL serviceName : String) : Config :=
  { apiKey := apiKey
    ingestURL := ingestURL
    sampleRate := DefaultSampleRate
    profileDuration := DefaultProfileDuration
    storage := some (.http 0)
    serviceName := serviceName
    tags := []
    memProfileRate := DefaultMemProfileRate
    mutexFraction := DefaultMutexFraction
    blockProfileRate := DefaultBlockProfileRate
    enableCPU := true
    enableMemory := true
    enableGoroutine := false
    enableMutex := false
    enableBlock := false
    enableCustom := false }

attribute [ext] Config

lemma fillDefaults_sampleRate (c : Config) :
    (fillDefaults c).sampleRate = if c.sampleRate ≤ 0 then DefaultSampleRate else c.sampleRate := rfl

lemma fillDefaults_profileDuration (c : Config) :
    (fillDefaults c).profileDuration =
      if c.profileDuration ≤ 0 then DefaultProfileDuration else c.profileDuration := rfl

lemma fillDefaults_memProfileRate (c : Config) :
    (fillDefaults c).memProfileRate =
      if c.memProfileRate ≤ 0 then DefaultMemProfileRate else c.memProfileRate := rfl

lemma fillDefaults_mutexFraction (c : Config) :
    (fillDefaults c).mutexFraction =
      if c.mutexFraction ≤ 0 then DefaultMutexFraction else c.mutexFraction := rfl

lemma fillDefaults_blockProfileRate (c : Config) :
    (fillDefaults c).blockProfileRate =
      if c.blockProfileRate ≤ 0 then DefaultBlockProfileRate else c.blockProfileRate := rfl

lemma fillDefaults_enableCPU (c : Config) :
    (fillDefaults c).enableCPU = if noKindEnabled c then true else c.enableCPU := rfl

lemma fillDefaults_enableMemory (c : Config) :
    (fillDefaults c).enableMemory = if noKindEnabled c then true else c.enableMemory := rfl

lemma fillDefaults_enableGoroutine (c : Config) :
    (fillDefaults c).enableGoroutine = c.enableGoroutine := rfl

lemma fillDefaults_enableMutex (c : Config) :
    (fillDefaults c).enableMutex = c.enableMutex := rfl

lemma fillDefaults_enableBlock (c : Config) :
    (fillDefaults c).enableBlock = c.enableBlock := rfl

lemma fillDefaults_enableCustom (c : Config) :
    (fillDefaults c).enableCustom = c.enableCustom := rfl

lemma noKindEnabled_fillDefaults (c : Config) : noKindEnabled (fillDefaults c) = false := by
  by_cases h : noKindEnabled c = true
  · have hcpu : (fillDefaults c).enableCPU = true := by
      rw [fillDefaults_enableCPU, if_pos h]
    simp [noKindEnabled, hcpu]
  · have h' : noKindEnabled c = false := by simpa using h
    have e1 : (fillDefaults c).enableCPU = c.enableCPU := by
      rw [fillDefaults_enableCPU, h']
      simp
    have e2 : (fillDefaults c).enableMemory = c.enableMemory := by
      rw [fillDefaults_enableMemory, h']
      simp
    unfold noKindEnabled at h' ⊢
    rw [e1, e2, fillDefaults_enableGoroutine, fillDefaults_enableMutex,
      fillDefaults_enableBlock, fillDefaults_enableCustom]
    exact h'

lemma fillDefaults_idem (c : Config) : fillDefaults (fillDefaults c) = fillDefaults c := by
  have hk := noKindEnabled_fillDefaults c
  have hs1 : ¬ (DefaultSampleRate ≤ 0) := by norm_num [DefaultSampleRate]
  have hs2 : ¬ (DefaultProfileDuration ≤ 0) := by norm_num [DefaultProfileDuration]
  have hs3 : ¬ (DefaultMemProfileRate ≤ 0) := by norm_num [DefaultMemProfileRate]
  have hs4 : ¬ (DefaultMutexFraction ≤ 0) := by norm_num [DefaultMutexFraction]
  have hs5 : ¬ (DefaultBlockProfileRate ≤ 0) := by norm_num [DefaultBlockProfileRate]
  ext
  case sampleRate =>
    rw [fillDefaults_sampleRate (fillDefaults c), fillDefaults_sampleRate c]
    split_ifs <;> simp_all
  case profileDuration =>
    rw [fillDefaults_profileDuration (fillDefaults c), fillDefaults_profileDuration c]
    split_ifs <;> simp_all
  case memProfileRate =>
    rw [fillDefaults_memProfileRate (fillDefaults c), fillDefaults_memProfileRate c]
    split_ifs <;> simp_all
  case mutexFraction =>
    rw [fillDefaults_mutexFraction (fillDefaults c), fillDefaults_mutexFraction c]
    split_ifs <;> simp_all
  case blockProfileRate =>
    rw [fillDefaults_blockProfileRate (fillDefaults c), fillDefaults_blockProfileRate c]
    split_ifs <;> simp_all
  case enableCPU =>
    rw [fillDefaults_enableCPU (fillDefaults c), hk]
    simp
  case enableMemory =>
    rw [fillDefaults_enableMemory (fillDefaults c), hk]
    simp
  all_goals rfl

/-- C8: validation is idempotent — if `validate` succeeds yielding `c'`,
running it again on `c'` succeeds and changes nothing — and a configuration
with no profile kind enabled comes out with exactly CPU and memory enabled. -/
theorem validate_idempotent_and_default_kinds (c c' : Config)
    (h : Config.validate c = .ok c') :
    Config.validate c' = .ok c' ∧
    (noKindEnabled c = true →
      c'.enableCPU = true ∧ c'.enableMemory = true ∧
      c'.enableGoroutine = false ∧ c'.enableMutex = false ∧
      c'.enableBlock = false ∧ c'.enableCustom = false) := by
  unfold Config.validate at h
  split_ifs at h with h1 h2 h3 h4
  have hc' : fillDefaults c = c' := by simpa using h
  subst hc'
  constructor
  · unfold Config.validate
    rw [if_neg (show ¬((fillDefaults c).apiKey = "") from h1),
      if_neg (show ¬((fillDefaults c).ingestURL = "") from h2),
      if_neg (show ¬((fillDefaults c).storage = none) from h3),
      if_neg (show ¬((fillDefaults c).serviceName = "") from h4),
      fillDefaults_idem]
  · intro hk
    have hflags := hk
    simp only [noKindEnabled, Bool.and_eq_true, Bool.not_eq_true'] at hflags
    obtain ⟨⟨⟨⟨⟨hcpu, hmem⟩, hgo⟩, hmu⟩, hbl⟩, hcu⟩ := hflags
    refine ⟨?_, ?_, hgo, hmu, hbl, hcu⟩
    · rw [fillDefaults_enableCPU, if_pos (by simp [hk])]
    · rw [fillDefaults_enableMemory, if_pos (by simp [hk])]

/-- A minimal valid configuration used to witness the validation theorems. -/
def witnessConfig : Config :=
  { apiKey := "k", ingestURL := "https://api.pprofio.com",
    storage := some (.http 3), serviceName := "svc" }

/-- Witness for `validate_idempotent_and_default_kinds`. -/
theorem validate_idempotent_witness :
    Config.validate (fillDefaults witnessConfig) = .ok (fillDefaults witnessConfig) ∧
    (noKindEnabled witnessConfig = true →
      (fillDefaults witnessConfig).enableCPU = true ∧
      (fillDefaults witnessConfig).enableMemory = true ∧
      (fillDefaults witnessConfig).enableGoroutine = false ∧
      (fillDefaults witnessConfig).enableMutex = false ∧
      (fillDefaults witnessConfig).enableBlock = false ∧
      (fillDefaults witnessConfig).enableCustom = false) :=
  validate_idempotent_and_default_kinds witnessConfig (fillDefaults witnessConfig) (by rfl)

/-- C10 (amended): with a non-positive `Retries` field — in particular the
`HTTPStorage` struct literal built by `DefaultConfig`, whose `Retries` keeps
the Go zero value 0, unlike `NewHTTPStorage` which sets 3 — the retry loop
body never runs: zero requests are sent, no sleeps happen, and the result is
the `"upload failed after %d attempts"` error reporting the configured
`Retries` value and wrapping the nil `lastErr`. -/
theorem upload_zero_attempts :
    (∀ (retries : Int), retries ≤ 0 → ∀ respond : Nat → HttpResult,
      uploadWithRetries retries respond =
        (.error (.uploadFailedAfter retries none), ⟨0, []⟩)) ∧
    (∀ apiKey ingestURL serviceName,
      (DefaultConfig apiKey ingestURL serviceName).storage = some (.http 0)) ∧
    (∀ url apiKey env, (NewHTTPStorage url apiKey env).retries = 3) := by
  refine ⟨?_, fun _ _ _ => rfl, fun _ _ _ => rfl⟩
  intro retries h respond
  rw [uploadWithRetries, show retries.toNat = 0 by omega]
  rfl

/-- Witness for `upload_zero_attempts` at `Retries = 0` (the `DefaultConfig`
storage) and at a negative value. -/
theorem upload_zero_attempts_witness :
    uploadWithRetries 0 (fun _ => .response 503 (.ok "")) =
      (.error (.uploadFailedAfter 0 none), ⟨0, []⟩) ∧
    uploadWithRetries (-2) (fun _ => .response 503 (.ok "")) =
      (.error (.uploadFailedAfter (-2) none), ⟨0, []⟩) :=
  ⟨upload_zero_attempts.1 0 (by norm_num) _,
   upload_zero_attempts.1 (-2) (by norm_num) _⟩

/-- Counterexample to C10 as stated: at `Retries = -1` the loop still sends
zero requests, but the returned error is `"upload failed after -1 attempts"`,
not the claimed `"upload failed after 0 attempts"`. -/
theorem upload_negative_retries_counterexample :
    uploadWithRetries (-1) (fun _ => .response 503 (.ok "")) =
      (.error (.uploadFailedAfter (-1) none), ⟨0, []⟩) ∧
    UploadErr.uploadFailedAfter (-1) none ≠ UploadErr.uploadFailedAfter 0 none := by
  exact ⟨rfl, by decide⟩

/-! ## Profiler lifecycle (pprofio.go lines 62-155, part_005 lines 40-52)

The lifecycle state that `start`/`stop` read and write under `p.mu`:
the `initialized` flag and whether the `stopCh` channel has been closed.
`newProfiler` is the only place that executes `make(chan struct{})`;
neither `start` nor `stop` ever replaces `stopCh`. -/

/-- Lifecycle-relevant state of the `Profiler` struct. -/
structure Profiler where
  initialized : Bool
  stopClosed : Bool
deriving Repr, DecidableEq

/-- The profiler as built by `newProfiler` (part_005 line 47):
`stopCh: make(chan struct{})` — fresh, not closed. -/
def freshProfiler : Profiler := { initialized := false, stopClosed := false }

/-- `Profiler.start` (pprofio.go lines 62-123): under the lock, fail if
already initialized, otherwise launch the collection goroutines and mark
initialized.  `stopCh` is left exactly as it was. -/
def Profiler.start (p : Profiler) : Except String Profiler :=
  if p.initialized then .error "profiler already started"
  else .ok { p with initialized := true }

/-- `Profiler.stop` (pprofio.go lines 131-155): under the lock, a no-op if
not initialized; otherwise close `stopCh` if it is not already closed
(the guarded `close`), wait on the join barrier, restore the runtime knobs
and clear `initialized`. -/
def Profiler.stop (p : Profiler) : Profiler :=
  if p.initialized then { initialized := false, stopClosed := true } else p

/-- Events a `collectProfiles` goroutine can observe in its `select` loop:
a `ticker.C` fire, the shared `stopCh` being readable, or `ctx.Done()`. -/
inductive LoopEvent where
  | tick
  | stopSignal
  | ctxDone
deriving Repr, DecidableEq

/-- The `select` loop of `collectProfiles` (part_005 lines 65-76), counting
how many profile collections run in total given the sequence of events the
loop observes: a tick collects and continues, the stop signal or context
expiry returns. -/
def collectLoop : List LoopEvent → Nat → Nat
  | [], n => n
  | .tick :: rest, n => collectLoop rest (n + 1)
  | .stopSignal :: _, n => n
  | .ctxDone :: _, n => n

/-- `collectProfiles` (part_005 lines 54-77): one collection runs
unconditionally at startup (line 61), then the `select` loop.  If `stopCh`
is already closed when the goroutine starts, the `stopCh` case is
immediately selectable before the first timer tick (the sample rate is
positive), so the loop observes the stop signal first. -/
def collectProfilesRun (stopClosed : Bool) (events : List LoopEvent) : Nat :=
  collectLoop (if stopClosed then LoopEvent.stopSignal :: events else events) 1

/-- C1 (behaviour at the failing input): after `Start`, `Stop`, the second
`Start` does succeed, but the stop channel stays closed, so every collection
goroutine of the second cycle performs only its unconditional startup
collection and exits at once — it never reaches a timer tick, whatever
events follow.  A first-cycle goroutine (stop channel open) by contrast
collects on every tick until the stop signal. -/
theorem restart_observes_stale_cancellation :
    freshProfiler.start = .ok { initialized := true, stopClosed := false } ∧
    Profiler.stop { initialized := true, stopClosed := false } =
      { initialized := false, stopClosed := true } ∧
    Profiler.start { initialized := false, stopClosed := true } =
      .ok { initialized := true, stopClosed := true } ∧
    (∀ events : List LoopEvent, collectProfilesRun true events = 1) ∧
    collectProfilesRun false [.tick, .tick, .stopSignal] = 3 :=
  ⟨rfl, rfl, rfl, fun _ => rfl, rfl⟩

/-! ## The HEAD configuration validation (C7)

Modelled from the spec: the repository's current `config.go` is not under
`src/` — the `Config` struct in the `config.go` present there lacks the
`OutputToStdout` and `Env` fields that `New` (pprofio.go lines 38-43) and
the tests (`TestConfig_WithStdoutOutput`, `TestNew_WithStdoutStorage`)
require, so the identity-gating branch of the current `validate` is
missing.  Spec §3: "identity fields are required unless output is
local-only (stdout/file), in which case they are optional"; §7:
"configuration error (missing required identity field when network output
is selected; surfaced synchronously at construction)". -/

/-- Whether the configured output mode is local-only: diagnostic stdout or
the local-filesystem storage. -/
def localOnlyOutput (c : Config) : Bool :=
  c.outputToStdout || c.storage == some .file

/-- Modelled from the spec: the current `Config.validate` with the
identity checks gated on network output.  The API-key and ingest-URL
checks apply only when the output is not local-only; the storage check is
skipped in stdout mode because `New` installs the stdout storage itself
(pprofio.go lines 38-39, and `TestConfig_WithStdoutOutput` passes no
storage); the default-filling mutations are those of `src/config.go`. -/
def validateHead (c : Config) : Except String Config :=
  if c.apiKey = "" ∧ localOnlyOutput c = false then .error "APIKey is required"
  else if c.ingestURL = "" ∧ localOnlyOutput c = false then .error "IngestURL is required"
  else if c.storage = none ∧ c.outputToStdout = false then .error "Storage is required"
  else if c.serviceName = "" then .error "ServiceName is required"
  else .ok (fillDefaults c)

/-- `newProfiler` (part_005 lines 40-52): validate, wrapping a failure as
`"invalid configuration: %w"`, else build the fresh profiler. -/
def newProfiler (c : Config) : Except String Profiler :=
  match validateHead c with
  | .error e => .error ("invalid configuration: " ++ e)
  | .ok _ => .ok freshProfiler

/-- C7: with a local-only output mode (stdout or file storage), validation
succeeds with both identity fields absent; with network output, a missing
API key is a configuration error surfaced synchronously by the constructor. -/
theorem localOnly_identity_optional (c : Config) :
    (localOnlyOutput c = true → c.serviceName ≠ "" →
      (c.outputToStdout = true ∨ c.storage ≠ none) →
      validateHead c = .ok (fillDefaults c)) ∧
    (localOnlyOutput c = false → c.apiKey = "" →
      newProfiler c = .error ("invalid configuration: " ++ "APIKey is required")) := by
  constructor
  · intro hlocal hsvc hstore
    unfold validateHead
    rw [if_neg (by simp [hlocal]), if_neg (by simp [hlocal]),
      if_neg ?_, if_neg (by simpa using hsvc)]
    rintro ⟨hs, ho⟩
    rcases hstore with h | h
    · rw [h] at ho
      cases ho
    · exact h hs
  · intro hnet hkey
    unfold newProfiler validateHead
    rw [if_pos ⟨hkey, hnet⟩]

/-- A stdout-mode configuration with no identity fields, as in
`TestConfig_WithStdoutOutput`. -/
def stdoutConfig : Config := { serviceName := "test-service", outputToStdout := true }

/-- Witness for `localOnly_identity_optional`: the stdout configuration
validates without identity fields; the all-zero configuration (network
output) fails at construction. -/
theorem localOnly_identity_optional_witness :
    validateHead stdoutConfig = .ok (fillDefaults stdoutConfig) ∧
    newProfiler {} = .error ("invalid configuration: " ++ "APIKey is required") :=
  ⟨(localOnly_identity_optional stdoutConfig).1 rfl (by decide) (Or.inl rfl),
   (localOnly_identity_optional {}).2 rfl rfl⟩

/-! ## Metadata dispatcher (metadata.go) -/

/-- `metadataClient.sendRequest` (metadata.go lines 65-85): build the
request, POST it, and report an error for a transport failure or for any
non-2xx status — there is no per-status classification. -/
def sendRequestGo (respond : Nat → HttpResult) (attempt : Nat) : Option AttemptErr :=
  match respond attempt with
  | .transportError => some .requestFailed
  | .response code _ =>
      if code < 200 || 300 ≤ code then some (.unexpectedStatus code) else none

/-- The final error of `sendMetadata`:
`"failed to send metadata after %d attempts: %w"`. -/
inductive MetaErr where
  | sendMetadataFailedAfter (retries : Int) (last : Option AttemptErr)
deriving Repr, DecidableEq

/-- The retry loop of `metadataClient.sendMetadata` (metadata.go lines
50-62): every failed `sendRequest` sets `lastErr`, sleeps
`(1 << attempt) * 100` ms and continues; any success returns nil at once. -/
def metaGo (retries : Int) (respond : Nat → HttpResult) :
    Nat → Nat → Option AttemptErr → Except MetaErr Unit × UploadTrace
  | _, 0, lastErr => (.error (.sendMetadataFailedAfter retries lastErr), ⟨0, []⟩)
  | attempt, rem + 1, _ =>
      match sendRequestGo respond attempt with
      | none => (.ok (), ⟨1, []⟩)
      | some e =>
          let r := metaGo retries respond (attempt + 1) rem (some e)
          (r.1, ⟨r.2.attempts + 1, (2 ^ attempt * 100) :: r.2.sleeps⟩)

/-- `metadataClient.sendMetadata`, from the top of its retry loop. -/
def sendMetadataGo (retries : Int) (respond : Nat → HttpResult) :
    Except MetaErr Unit × UploadTrace :=
  metaGo retries respond 0 retries.toNat none

/-- The `metadataClient` struct (metadata.go lines 15-20). -/
structure MetadataClient where
  ingestURL : String
  apiKey : String
  retries : Int
deriving Repr, DecidableEq

/-- `newMetadataClient` (metadata.go lines 22-29): its own budget of 3,
independent of the storage backend's. -/
def newMetadataClient (ingestURL apiKey : String) : MetadataClient :=
  { ingestURL := ingestURL, apiKey := apiKey, retries := 3 }

/-- Counterexample to C6 as stated: a metadata endpoint answering 401 on
every attempt is retried the full budget — 3 requests with backoff sleeps
after each failure — instead of aborting fatally after exactly one attempt. -/
theorem metadata_auth_retried_counterexample :
    sendMetadataGo (newMetadataClient "https://api.pprofio.com" "k").retries
        (fun _ => .response 401 (.ok "")) =
      (.error (.sendMetadataFailedAfter 3 (some (.unexpectedStatus 401))),
        ⟨3, [100, 200, 400]⟩) ∧
    (3 : Nat) ≠ 1 :=
  ⟨rfl, by decide⟩

/-- C6 (amended): metadata delivery uses an independent budget (the 3 of
`newMetadataClient`) and exponential backoff of `2^attempt · 100` ms after
each failed attempt, but applies no status classification: every failure —
transport errors, 401/403, 429/5xx and any other non-2xx alike — is retried
until the budget is exhausted, and the final error wraps the last attempt's
error. -/
theorem metadata_uniform_retry (respond : Nat → HttpResult)
    (errs : Nat → AttemptErr) (h : ∀ a, sendRequestGo respond a = some (errs a))
    (u k : String) :
    sendMetadataGo (newMetadataClient u k).retries respond =
      (.error (.sendMetadataFailedAfter 3 (some (errs 2))), ⟨3, [100, 200, 400]⟩) := by
  rw [show (newMetadataClient u k).retries = 3 from rfl, sendMetadataGo,
    show (3 : Int).toNat = 3 from rfl]
  simp only [metaGo, h 0, h 1, h 2]
  norm_num

/-- Witness for `metadata_uniform_retry`: a transport failure on every
attempt. -/
theorem metadata_uniform_retry_witness :
    sendMetadataGo (newMetadataClient "https://api.pprofio.com" "key").retries
        (fun _ => .transportError) =
      (.error (.sendMetadataFailedAfter 3 (some .requestFailed)),
        ⟨3, [100, 200, 400]⟩) :=
  metadata_uniform_retry (fun _ => .transportError) (fun _ => .requestFailed)
    (fun _ => rfl) "https://api.pprofio.com" "key"

/-! ## Metadata built after a successful upload (part_005 lines 192-242) -/

/-- The struct `uploadProfile` decodes the upload response into:
`profile_id`, `profile_url`, `type`. -/
structure UploadResponse where
  profileID : String
  profileURL : String
  ptype : String
deriving Repr, DecidableEq

/-- Go map assignment `m[k] = v` on a map kept as an association list. -/
def mapInsert (m : List (String × String)) (k v : String) : List (String × String) :=
  if m.any (fun p => p.1 == k) then m.map (fun p => if p.1 == k then (k, v) else p)
  else m ++ [(k, v)]

/-- The metadata map built by `uploadProfile` (part_005 lines 214-225):
the literal with `profile_id`, `profile_url`, `service`, `type`,
`timestamp`, then every configured tag inserted. -/
def buildMetadata (serviceName : String) (tags : List (String × String))
    (resp : UploadResponse) (ts : String) : List (String × String) :=
  tags.foldl (fun m p => mapInsert m p.1 p.2)
    [("profile_id", resp.profileID), ("profile_url", resp.profileURL),
     ("service", serviceName), ("type", resp.ptype), ("timestamp", ts)]

/-- `uploadProfile` from the point where `Storage.Upload` has succeeded and
returned `locator` (part_005 lines 199-242): `json.Unmarshal` the locator
string into `UploadResponse`; on decode failure return the
`"failed to parse upload response"` error (no metadata is built or
dispatched at all); on success build the metadata record from the decoded
fields.  The JSON decoder is an external collaborator (spec §1) passed in
as `parse`. -/
def uploadProfileGo (parse : String → Option UploadResponse)
    (serviceName : String) (tags : List (String × String)) (locator ts : String) :
    Except String (List (String × String)) :=
  match parse locator with
  | none => .error "failed to parse upload response"
  | some resp => .ok (buildMetadata serviceName tags resp ts)

/-- Models the external JSON decoder (spec §1 treats JSON encoding as an
external collaborator) at its interface boundary on the inputs used below:
a bare string — the `"stdout"` sentinel of `StdoutStorage.Upload` or the
plain locator URL that `TestUploadProfileWithCorrectFlow` has the backend
return — is not a JSON object, so decoding fails; the JSON object with the
three fields decodes to them. -/
def jsonDecodeStub : String → Option UploadResponse :=
  fun s =>
    if s = "\x7b\"profile_id\":\"abc123\",\"profile_url\":\"https://app.pprofio.com/p/abc123\",\"type\":\"cpu\"\x7d"
    then some { profileID := "abc123",
                profileURL := "https://app.pprofio.com/p/abc123", ptype := "cpu" }
    else none

/-- C5 (behaviour at the failing inputs): for the locators the repository's
own tests use — the `"stdout"` sentinel and the plain URL — `uploadProfile`
fails at the JSON decode and builds no metadata record at all; and when the
locator does decode, the record maps `profile_url` to the decoded inner
field (not to the locator string the backend returned) and contains the
`profile_id` key that `TestUploadProfileWithCorrectFlow` requires absent. -/
theorem uploadProfile_reparses_locator :
    uploadProfileGo jsonDecodeStub "test-service" [("env", "test")]
        "stdout" "1609459200" = .error "failed to parse upload response" ∧
    uploadProfileGo jsonDecodeStub "test-service" [("env", "test")]
        "https://storage.pprofio.com/profiles/abc123.pprof" "1609459200" =
      .error "failed to parse upload response" ∧
    uploadProfileGo jsonDecodeStub "test-service" [("env", "test")]
        "\x7b\"profile_id\":\"abc123\",\"profile_url\":\"https://app.pprofio.com/p/abc123\",\"type\":\"cpu\"\x7d"
        "1609459200" =
      .ok [("profile_id", "abc123"),
        ("profile_url", "https://app.pprofio.com/p/abc123"),
        ("service", "test-service"), ("type", "cpu"),
        ("timestamp", "1609459200"), ("env", "test")] ∧
    ("https://app.pprofio.com/p/abc123" : String) ≠
      "\x7b\"profile_id\":\"abc123\",\"profile_url\":\"https://app.pprofio.com/p/abc123\",\"type\":\"cpu\"\x7d" :=
  ⟨rfl, rfl, rfl, by decide⟩

/-! ## Span aggregator (part_001 lines 25-70) -/

/-- A user span; only the name matters to the aggregator's bucketing. -/
structure Span where
  name : String
deriving Repr, DecidableEq

/-- `spans[span.Name] = append(spans[span.Name], span)` on the map kept as
an association list of buckets. -/
def appendBucket : List (String × List Span) → Span → List (String × List Span)
  | [], s => [(s.name, [s])]
  | (k, b) :: rest, s =>
      if k = s.name then (k, b ++ [s]) :: rest else (k, b) :: appendBucket rest s

/-- State of the `processCustomSpans` goroutine: whether `spansLock` is
held, the `spans` map, whether the goroutine is blocked forever on a lock
acquisition (Go `sync.Mutex` is not reentrant: `Lock` on a mutex the same
goroutine already holds blocks forever), whether it returned, and the
snapshots handed to the asynchronous `processSpans`. -/
structure AggState where
  lockHeld : Bool
  spans : List (String × List Span)
  deadlocked : Bool
  stopped : Bool
  flushed : List (List (String × List Span))
deriving Repr, DecidableEq

/-- What the goroutine's `select` can observe: a queued span on `spanCh`,
a flush tick, the stop signal, context expiry. -/
inductive AggEvent where
  | recv (s : Span)
  | flushTick
  | stopSignal
  | ctxDone
deriving Repr, DecidableEq

/-- One iteration of the `processCustomSpans` select loop (part_001 lines
38-69).  The `recv` case is lines 40-43: `spansLock.Lock()`, the append,
then — the double-acquire — `spansLock.Lock()` again instead of `Unlock`,
which blocks the goroutine forever on the mutex it itself holds.  The
`flushTick` case is lines 45-61: lock, snapshot-and-swap if non-empty,
unlock, hand the snapshot to the asynchronous upload. -/
def aggStep (st : AggState) (e : AggEvent) : AggState :=
  if st.deadlocked || st.stopped then st
  else
    match e with
    | .recv s =>
        if st.lockHeld then { st with deadlocked := true }
        else { st with lockHeld := true, spans := appendBucket st.spans s,
                       deadlocked := true }
    | .flushTick =>
        if st.lockHeld then { st with deadlocked := true }
        else if st.spans.isEmpty then st
        else { st with spans := [], flushed := st.flushed ++ [st.spans] }
    | .stopSignal => { st with stopped := true }
    | .ctxDone => { st with stopped := true }

/-- The goroutine's initial state: lock free, empty map, running. -/
def aggInit : AggState :=
  { lockHeld := false, spans := [], deadlocked := false, stopped := false,
    flushed := [] }

/-- Running the aggregator over a sequence of observed events. -/
def aggRun (events : List AggEvent) : AggState := events.foldl aggStep aggInit

/-- C9 (behaviour at the failing input): two spans named "op" are accepted
into the queue and a flush tick follows.  The first append re-acquires the
held lock and blocks the goroutine forever, so the second accepted span is
never appended and no snapshot is ever flushed — while a correct
acquire/append/release aggregator would have both spans in the bucket
handed to the next flush. -/
theorem span_append_deadlocks :
    aggRun [.recv { name := "op" }, .recv { name := "op" }, .flushTick] =
      { lockHeld := true, spans := [("op", [{ name := "op" }])],
        deadlocked := true, stopped := false, flushed := [] } ∧
    appendBucket (appendBucket [] { name := "op" }) { name := "op" } =
      [("op", [{ name := "op" }, { name := "op" }])] :=
  ⟨rfl, rfl⟩

end Pprofio
